import Mathlib

/-!
Shallow embedding of the FaithConnect member backend (`NodeApp.js`):
the sign-up / login / profile request handlers, the Joi validation
schema, and the bearer-token gate.  External libraries (bcryptjs,
jsonwebtoken, pg) are modelled as explicit function parameters or
outcome parameters of the handlers; the handler logic itself is
translated from the source.
-/

namespace FaithConnect

/-- JSON values, as produced by `express.json()` and `res.json(...)`. -/
inductive JValue where
  | jNull : JValue
  | jBool (b : Bool) : JValue
  | jNum (n : Int) : JValue
  | jStr (s : String) : JValue
  | jArr (xs : List JValue) : JValue
  | jObj (fields : List (String × JValue)) : JValue
deriving Repr

mutual

/-- Boolean equality on JSON values. -/
def beqJ : JValue → JValue → Bool
  | JValue.jNull, JValue.jNull => true
  | JValue.jBool a, JValue.jBool b => a == b
  | JValue.jNum a, JValue.jNum b => a == b
  | JValue.jStr a, JValue.jStr b => a == b
  | JValue.jArr a, JValue.jArr b => beqArr a b
  | JValue.jObj a, JValue.jObj b => beqFields a b
  | _, _ => false

def beqArr : List JValue → List JValue → Bool
  | [], [] => true
  | x :: xs, y :: ys => beqJ x y && beqArr xs ys
  | _, _ => false

def beqFields : List (String × JValue) → List (String × JValue) → Bool
  | [], [] => true
  | (k1, v1) :: fs1, (k2, v2) :: fs2 => k1 == k2 && beqJ v1 v2 && beqFields fs1 fs2
  | _, _ => false

end

mutual

theorem beqJ_eq : ∀ a b : JValue, beqJ a b = true → a = b
  | JValue.jNull, JValue.jNull, _ => rfl
  | JValue.jBool a, JValue.jBool b, h => by
      simp only [beqJ, beq_iff_eq] at h; rw [h]
  | JValue.jNum a, JValue.jNum b, h => by
      simp only [beqJ, beq_iff_eq] at h; rw [h]
  | JValue.jStr a, JValue.jStr b, h => by
      simp only [beqJ, beq_iff_eq] at h; rw [h]
  | JValue.jArr a, JValue.jArr b, h => by
      rw [beqArr_eq a b (by simpa only [beqJ] using h)]
  | JValue.jObj a, JValue.jObj b, h => by
      rw [beqFields_eq a b (by simpa only [beqJ] using h)]

theorem beqArr_eq : ∀ a b : List JValue, beqArr a b = true → a = b
  | [], [], _ => rfl
  | x :: xs, y :: ys, h => by
      simp only [beqArr, Bool.and_eq_true] at h
      rw [beqJ_eq x y h.1, beqArr_eq xs ys h.2]

theorem beqFields_eq : ∀ a b : List (String × JValue), beqFields a b = true → a = b
  | [], [], _ => rfl
  | (k1, v1) :: fs1, (k2, v2) :: fs2, h => by
      simp only [beqFields, Bool.and_eq_true, beq_iff_eq] at h
      rw [h.1.1, beqJ_eq v1 v2 h.1.2, beqFields_eq fs1 fs2 h.2]

end

mutual

theorem beqJ_refl : ∀ a : JValue, beqJ a a = true
  | JValue.jNull => rfl
  | JValue.jBool a => by simp [beqJ]
  | JValue.jNum a => by simp [beqJ]
  | JValue.jStr a => by simp [beqJ]
  | JValue.jArr a => by simpa only [beqJ] using beqArr_refl a
  | JValue.jObj a => by simpa only [beqJ] using beqFields_refl a

theorem beqArr_refl : ∀ a : List JValue, beqArr a a = true
  | [] => rfl
  | x :: xs => by
      simp only [beqArr, Bool.and_eq_true]
      exact ⟨beqJ_refl x, beqArr_refl xs⟩

theorem beqFields_refl : ∀ a : List (String × JValue), beqFields a a = true
  | [] => rfl
  | (k, v) :: fs => by
      simp only [beqFields, Bool.and_eq_true, beq_iff_eq]
      exact ⟨⟨trivial, beqJ_refl v⟩, beqFields_refl fs⟩

end

instance : DecidableEq JValue := fun a b =>
  decidable_of_iff (beqJ a b = true) ⟨beqJ_eq a b, fun h => h ▸ beqJ_refl a⟩

/-- JavaScript truthiness of a JSON value (`!v`-style checks in the source). -/
def jsTruthy : JValue → Bool
  | JValue.jNull => false
  | JValue.jBool b => b
  | JValue.jNum n => n != 0
  | JValue.jStr s => s != ""
  | JValue.jArr _ => true
  | JValue.jObj _ => true

/-- Truthiness of a possibly absent field (`undefined` is falsy). -/
def jsTruthyOpt : Option JValue → Bool
  | none => false
  | some v => jsTruthy v

mutual

/-- All object keys occurring anywhere in a JSON value. -/
def keysOf : JValue → List String
  | JValue.jArr xs => keysOfArr xs
  | JValue.jObj fs => keysOfFields fs
  | _ => []

def keysOfArr : List JValue → List String
  | [] => []
  | x :: xs => keysOf x ++ keysOfArr xs

def keysOfFields : List (String × JValue) → List String
  | [] => []
  | (k, v) :: fs => k :: (keysOf v ++ keysOfFields fs)

end

/-- Field lookup in a parsed JSON object (keys are unique after parsing). -/
def lookupField (fields : List (String × JValue)) (k : String) : Option JValue :=
  (fields.find? (fun p => p.1 == k)).map Prod.snd

/-- A row of the `members` table (schema from the SQL in the source header). -/
structure Member where
  id : Nat
  first_name : String
  last_name : String
  email : String
  phone : Option String
  password_hash : String
  date_of_birth : Option String
  gender : Option String
  address : Option String
  church_role : String
  join_date : String
  is_active : Bool
  email_verified : Bool
deriving DecidableEq, Repr

/-- The relational store: the `members` table plus the `SERIAL` id counter. -/
structure DB where
  members : List Member
  nextId : Nat
deriving DecidableEq, Repr

/-- The claims embedded in a JWT by `jwt.sign` in the source. -/
structure JwtPayload where
  id : Nat
  email : String
  role : String
deriving DecidableEq, Repr

/-- Classified failure of `jwt.verify` (invalid signature / malformed / expired). -/
inductive JwtError where
  | invalidSignature : JwtError
  | malformed : JwtError
  | expired : JwtError
deriving DecidableEq, Repr

/-- An error thrown by the pg driver: raw message plus SQLSTATE code
(e.g. `23505` for a unique-constraint violation). -/
structure DbError where
  message : String
  code : String
deriving DecidableEq, Repr

/-- Outcome of the store during one sign-up request: both queries succeed,
the existence `SELECT` throws, or the `INSERT` throws. -/
inductive StoreBehavior where
  | normal : StoreBehavior
  | failSelect (e : DbError) : StoreBehavior
  | failInsert (e : DbError) : StoreBehavior
deriving DecidableEq, Repr

/-- JavaScript `String.prototype.split` with a one-character separator,
on the character list of the string (e.g. `"a  b".split(' ')` is
`["a", "", "b"]` and `"".split(' ')` is `[""]`). -/
def splitOnChar (sep : Char) : List Char → List (List Char)
  | [] => [[]]
  | c :: cs =>
    match splitOnChar sep cs with
    | [] => if c = sep then [[], []] else [[c]]
    | x :: xs => if c = sep then [] :: x :: xs else (c :: x) :: xs

/-- The regex character class `[1-9]`. -/
def digits19 : List Char := ['1', '2', '3', '4', '5', '6', '7', '8', '9']

/-- Membership in `[1-9]`. -/
def isDigit19 (c : Char) : Bool := digits19.contains c

/-- The regex character class `\d`, i.e. `[0-9]`. -/
def isDigit09 (c : Char) : Bool := ('0' :: digits19).contains c

/-- Tail of the phone regex after the optional plus:
`[1-9][\d]{0,15}` anchored to the end of the string. -/
def phoneRegexBody : List Char → Bool
  | [] => false
  | d :: ds => isDigit19 d && decide (ds.length ≤ 15) && ds.all isDigit09

/-- The optional leading plus sign (`[\+]?`): a leading `+` is consumed;
this is equivalent to the regex's backtracking choice because `+` can
never satisfy the following `[1-9]`. -/
def stripLeadingPlus : List Char → List Char
  | '+' :: ds => ds
  | ds => ds

/-- The Joi phone pattern from the schema: `/^[\+]?[1-9][\d]{0,15}$/`. -/
def phoneRegexMatches (s : String) : Bool :=
  phoneRegexBody (stripLeadingPlus s.data)

/-- Model of Joi's `string().email()` rule (external library behavior,
simplified): exactly one `@`, a nonempty local part, and a domain of at
least two nonempty dot-separated labels whose last label has length at
least 2.  No claim depends on the fine structure of this rule. -/
def emailFormatOk (s : String) : Bool :=
  match splitOnChar '@' s.data with
  | [local_, domain] =>
    !local_.isEmpty &&
      (let labels := splitOnChar '.' domain
       decide (2 ≤ labels.length) && labels.all (fun l => !l.isEmpty) &&
         decide (2 ≤ (labels.getLastD []).length))
  | _ => false

/-- Model of JavaScript `Date` parsing as used by Joi's `date()` rule
(external library behavior, simplified): a nonempty string containing a
digit.  No claim depends on this rule. -/
def jsDateParseOk (s : String) : Bool :=
  s != "" && s.data.any isDigit09

/-- Joi check for a required string field with length bounds
(`Joi.string().min(lo).max(hi).required()`). -/
def requiredStringCheck (name : String) (lo hi : Nat) : Option JValue → Option String
  | none => some ("\"" ++ name ++ "\" is required")
  | some (JValue.jStr s) =>
    if s = "" then some ("\"" ++ name ++ "\" is not allowed to be empty")
    else if s.length < lo then
      some ("\"" ++ name ++ "\" length must be at least " ++ toString lo ++
        " characters long")
    else if hi < s.length then
      some ("\"" ++ name ++ "\" length must be less than or equal to " ++
        toString hi ++ " characters long")
    else none
  | some _ => some ("\"" ++ name ++ "\" must be a string")

/-- Joi check for an optional string field with a maximum length
(`Joi.string().max(hi).optional()`). -/
def optionalStringCheck (name : String) (hi : Nat) : Option JValue → Option String
  | none => none
  | some (JValue.jStr s) =>
    if s = "" then some ("\"" ++ name ++ "\" is not allowed to be empty")
    else if hi < s.length then
      some ("\"" ++ name ++ "\" length must be less than or equal to " ++
        toString hi ++ " characters long")
    else none
  | some _ => some ("\"" ++ name ++ "\" must be a string")

/-- The schema's `email` rule: `Joi.string().email().required()`. -/
def emailCheck : Option JValue → Option String
  | none => some ("\"email\" is required")
  | some (JValue.jStr s) =>
    if s = "" then some ("\"email\" is not allowed to be empty")
    else if emailFormatOk s then none
    else some ("\"email\" must be a valid email")
  | some _ => some ("\"email\" must be a string")

/-- The schema's `phone` rule: an optional string matched against
`/^[\+]?[1-9][\d]{0,15}$/`, with the custom pattern message from the
source. -/
def phoneCheck : Option JValue → Option String
  | none => none
  | some (JValue.jStr s) =>
    if s = "" then some ("\"phone\" is not allowed to be empty")
    else if phoneRegexMatches s then none
    else some "Phone number must be valid international format"
  | some _ => some ("\"phone\" must be a string")

/-- The schema's `password` rule: `Joi.string().min(8).required()`. -/
def passwordCheck : Option JValue → Option String
  | none => some ("\"password\" is required")
  | some (JValue.jStr s) =>
    if s = "" then some ("\"password\" is not allowed to be empty")
    else if s.length < 8 then
      some "\"password\" length must be at least 8 characters long"
    else none
  | some _ => some ("\"password\" must be a string")

/-- The schema's `dateOfBirth` rule: `Joi.date().optional()` (Joi's date
type also accepts numbers). -/
def dateOfBirthCheck : Option JValue → Option String
  | none => none
  | some (JValue.jNum _) => none
  | some (JValue.jStr s) =>
    if jsDateParseOk s then none else some ("\"dateOfBirth\" must be a valid date")
  | some _ => some ("\"dateOfBirth\" must be a valid date")

/-- The schema's `gender` rule: `Joi.string().valid('male', 'female',
'other').optional()`. -/
def genderCheck : Option JValue → Option String
  | none => none
  | some (JValue.jStr s) =>
    if s = "male" || s = "female" || s = "other" then none
    else some ("\"gender\" must be one of [male, female, other]")
  | some _ => some ("\"gender\" must be one of [male, female, other]")

/-- The keys declared in `memberSignupSchema`. -/
def schemaKeys : List String :=
  ["firstName", "lastName", "email", "phone", "password",
   "dateOfBirth", "gender", "address", "churchRole"]

/-- Joi objects reject unknown keys by default. -/
def unknownKeyCheck (fields : List (String × JValue)) : Option String :=
  match fields.find? (fun p => !schemaKeys.contains p.1) with
  | some p => some ("\"" ++ p.1 ++ "\" is not allowed")
  | none => none

/-- The first violated rule of `memberSignupSchema`, in schema order.
Joi's `validate` runs with its default `abortEarly: true` (the source
passes no options), so only the first violation is reported. -/
def firstValidationError (fields : List (String × JValue)) : Option String :=
  requiredStringCheck "firstName" 2 100 (lookupField fields "firstName") <|>
  requiredStringCheck "lastName" 2 100 (lookupField fields "lastName") <|>
  emailCheck (lookupField fields "email") <|>
  phoneCheck (lookupField fields "phone") <|>
  passwordCheck (lookupField fields "password") <|>
  dateOfBirthCheck (lookupField fields "dateOfBirth") <|>
  genderCheck (lookupField fields "gender") <|>
  optionalStringCheck "address" 500 (lookupField fields "address") <|>
  optionalStringCheck "churchRole" 50 (lookupField fields "churchRole") <|>
  unknownKeyCheck fields

/-- The normalized value produced by a successful validation
(the destructured `value` in the sign-up handler). -/
structure SignupData where
  firstName : String
  lastName : String
  email : String
  phone : Option String
  password : String
  dateOfBirth : Option String
  gender : Option String
  address : Option String
  churchRole : Option String
deriving DecidableEq, Repr

def getStrField (fields : List (String × JValue)) (k : String) : Option String :=
  match lookupField fields k with
  | some (JValue.jStr s) => some s
  | _ => none

/-- The validated `dateOfBirth`, rendered as text (Joi converts it to a
`Date`; numbers are rendered by `toString`). -/
def getDateField (fields : List (String × JValue)) : Option String :=
  match lookupField fields "dateOfBirth" with
  | some (JValue.jStr s) => some s
  | some (JValue.jNum n) => some (toString n)
  | _ => none

/-- `memberSignupSchema.validate(req.body)`: either the list of error
messages (a singleton under Joi's default `abortEarly: true`) or the
normalized record. -/
def signupValidate (body : JValue) : Except (List String) SignupData :=
  match body with
  | JValue.jObj fields =>
    match firstValidationError fields with
    | some e => Except.error [e]
    | none =>
      Except.ok
        { firstName := (getStrField fields "firstName").getD ""
          lastName := (getStrField fields "lastName").getD ""
          email := (getStrField fields "email").getD ""
          phone := getStrField fields "phone"
          password := (getStrField fields "password").getD ""
          dateOfBirth := getDateField fields
          gender := getStrField fields "gender"
          address := getStrField fields "address"
          churchRole := getStrField fields "churchRole" }
  | _ => Except.error ["\"value\" must be of type object"]

/-- 400 body of the sign-up handler on validation failure. -/
def validationErrorBody (es : List String) : JValue :=
  JValue.jObj
    [("success", JValue.jBool false),
     ("message", JValue.jStr "Validation error"),
     ("errors", JValue.jArr (es.map JValue.jStr))]

/-- 409 body: `{ success: false, message: 'Email already registered' }`. -/
def emailConflictBody : JValue :=
  JValue.jObj
    [("success", JValue.jBool false),
     ("message", JValue.jStr "Email already registered")]

/-- 500 body of the sign-up catch block.  The source's ternary
`process.env.NODE_ENV === 'development' ? error.message : error.message`
is mirrored literally: both branches expose the raw message. -/
def signupCatchBody (devMode : Bool) (e : DbError) : JValue :=
  JValue.jObj
    [("success", JValue.jBool false),
     ("message", JValue.jStr "Internal server error"),
     ("error", JValue.jStr (if devMode then e.message else e.message))]

/-- Generic 500 body of the login and profile catch blocks. -/
def serverErrorBody : JValue :=
  JValue.jObj
    [("success", JValue.jBool false),
     ("message", JValue.jStr "Internal server error")]

/-- 400 body of the login handler when a credential field is falsy. -/
def missingCredentialsBody : JValue :=
  JValue.jObj
    [("success", JValue.jBool false),
     ("message", JValue.jStr "Email and password are required")]

/-- 401 body for an unknown email or a failed password comparison. -/
def invalidCredentialsBody : JValue :=
  JValue.jObj
    [("success", JValue.jBool false),
     ("message", JValue.jStr "Invalid credentials")]

/-- 401 body for a deactivated account. -/
def deactivatedBody : JValue :=
  JValue.jObj
    [("success", JValue.jBool false),
     ("message", JValue.jStr "Account is deactivated")]

/-- 404 body of the profile handler. -/
def memberNotFoundBody : JValue :=
  JValue.jObj
    [("success", JValue.jBool false),
     ("message", JValue.jStr "Member not found")]

/-- 401 body of the auth gate when no token is extracted. -/
def accessTokenRequiredBody : JValue :=
  JValue.jObj
    [("success", JValue.jBool false),
     ("message", JValue.jStr "Access token required")]

/-- 403 body of the auth gate when `jwt.verify` fails. -/
def invalidTokenBody : JValue :=
  JValue.jObj
    [("success", JValue.jBool false),
     ("message", JValue.jStr "Invalid or expired token")]

/-- JavaScript `x || null` on an optional string (the empty string is
falsy, though validation never lets one through). -/
def jsOrNull : Option String → Option String
  | none => none
  | some s => if s = "" then none else some s

/-- JavaScript `x || 'member'` for the `churchRole` column default. -/
def jsOrMember : Option String → String
  | none => "member"
  | some s => if s = "" then "member" else s

/-- The row returned by the `INSERT ... RETURNING id, first_name,
last_name, email, church_role, join_date` clause, as JSON. -/
def returningRow (m : Member) : JValue :=
  JValue.jObj
    [("id", JValue.jNum (Int.ofNat m.id)),
     ("first_name", JValue.jStr m.first_name),
     ("last_name", JValue.jStr m.last_name),
     ("email", JValue.jStr m.email),
     ("church_role", JValue.jStr m.church_role),
     ("join_date", JValue.jStr m.join_date)]

/-- 201 body of a successful sign-up. -/
def signupSuccessBody (m : Member) (token : String) : JValue :=
  JValue.jObj
    [("success", JValue.jBool true),
     ("message", JValue.jStr "Member registered successfully"),
     ("data", JValue.jObj
       [("member", returningRow m),
        ("token", JValue.jStr token)])]

/-- The row inserted by the sign-up handler (`db`-assigned id and
timestamps, `true`/`false` column defaults from the table definition). -/
def insertedMember (db : DB) (v : SignupData) (passwordHash joinDate : String) :
    Member :=
  { id := db.nextId
    first_name := v.firstName
    last_name := v.lastName
    email := v.email
    phone := jsOrNull v.phone
    password_hash := passwordHash
    date_of_birth := jsOrNull v.dateOfBirth
    gender := jsOrNull v.gender
    address := jsOrNull v.address
    church_role := jsOrMember v.churchRole
    join_date := joinDate
    is_active := true
    email_verified := false }

/-- `POST /members/signup`.  `hash` is `bcrypt.hash(·, 12)` with its salt
fixed, `sign` is `jwt.sign` with the configured secret and 24h expiry,
`devMode` is `process.env.NODE_ENV === 'development'`, `joinDate` is the
store-assigned `join_date` timestamp.  Returns the new store state, the
HTTP status and the response body. -/
def membersSignup (db : DB) (behavior : StoreBehavior) (body : JValue)
    (hash : String → String) (sign : JwtPayload → String)
    (devMode : Bool) (joinDate : String) : DB × Nat × JValue :=
  match signupValidate body with
  | Except.error es => (db, 400, validationErrorBody es)
  | Except.ok v =>
    match behavior with
    | StoreBehavior.failSelect e => (db, 500, signupCatchBody devMode e)
    | _ =>
      if db.members.any (fun m => m.email == v.email) then
        (db, 409, emailConflictBody)
      else
        match behavior with
        | StoreBehavior.failInsert e => (db, 500, signupCatchBody devMode e)
        | _ =>
          let nm := insertedMember db v (hash v.password) joinDate
          let token := sign { id := nm.id, email := nm.email, role := nm.church_role }
          ({ members := db.members ++ [nm], nextId := db.nextId + 1 },
           201, signupSuccessBody nm token)

/-- The pg comparison `email = $1`: the bound parameter equals the
`VARCHAR` column value. -/
def paramEqText (p : JValue) (s : String) : Bool :=
  match p with
  | JValue.jStr t => t == s
  | _ => false

/-- 200 body of a successful login. -/
def loginSuccessBody (m : Member) (token : String) : JValue :=
  JValue.jObj
    [("success", JValue.jBool true),
     ("message", JValue.jStr "Login successful"),
     ("data", JValue.jObj
       [("member", JValue.jObj
         [("id", JValue.jNum (Int.ofNat m.id)),
          ("firstName", JValue.jStr m.first_name),
          ("lastName", JValue.jStr m.last_name),
          ("email", JValue.jStr m.email),
          ("churchRole", JValue.jStr m.church_role)]),
        ("token", JValue.jStr token)])]

/-- `POST /members/login`.  `queryFails` injects a thrown store error
(caught as a generic 500), `compare` is `bcrypt.compare`, `sign` is
`jwt.sign`.  Returns the HTTP status and the response body. -/
def membersLogin (db : DB) (queryFails : Option DbError)
    (emailField passwordField : Option JValue)
    (compare : JValue → String → Bool) (sign : JwtPayload → String) :
    Nat × JValue :=
  if !jsTruthyOpt emailField || !jsTruthyOpt passwordField then
    (400, missingCredentialsBody)
  else
    match queryFails with
    | some _ => (500, serverErrorBody)
    | none =>
      let ev := emailField.getD JValue.jNull
      match db.members.find? (fun m => paramEqText ev m.email) with
      | none => (401, invalidCredentialsBody)
      | some m =>
        if !m.is_active then (401, deactivatedBody)
        else if !compare (passwordField.getD JValue.jNull) m.password_hash then
          (401, invalidCredentialsBody)
        else
          (200, loginSuccessBody m
            (sign { id := m.id, email := m.email, role := m.church_role }))

/-- A nullable text column as JSON (`NULL` becomes `null`). -/
def jsonOfOptText : Option String → JValue
  | some s => JValue.jStr s
  | none => JValue.jNull

/-- The row selected by the profile query (no `password_hash` column). -/
def profileRow (m : Member) : JValue :=
  JValue.jObj
    [("id", JValue.jNum (Int.ofNat m.id)),
     ("first_name", JValue.jStr m.first_name),
     ("last_name", JValue.jStr m.last_name),
     ("email", JValue.jStr m.email),
     ("phone", jsonOfOptText m.phone),
     ("date_of_birth", jsonOfOptText m.date_of_birth),
     ("gender", jsonOfOptText m.gender),
     ("address", jsonOfOptText m.address),
     ("church_role", JValue.jStr m.church_role),
     ("join_date", JValue.jStr m.join_date)]

/-- The `GET /members/profile` handler body (after the auth gate), keyed
by `req.user.id`. -/
def membersProfile (db : DB) (queryFails : Option DbError) (userId : Nat) :
    Nat × JValue :=
  match queryFails with
  | some _ => (500, serverErrorBody)
  | none =>
    match db.members.find? (fun m => m.id == userId) with
    | none => (404, memberNotFoundBody)
    | some m =>
      (200, JValue.jObj [("success", JValue.jBool true), ("data", profileRow m)])

/-- Outcome of the auth gate: an immediate response, or control passed to
the handler with `req.user` set to the decoded claims. -/
inductive GateResult where
  | response (status : Nat) (body : JValue) : GateResult
  | proceed (user : JwtPayload) : GateResult
deriving DecidableEq, Repr

/-- `authHeader && authHeader.split(' ')[1]`, with JavaScript falsiness:
no header, no second space-separated segment, or an empty second segment
all leave the token missing. -/
def extractToken (authHeader : Option String) : Option String :=
  match authHeader with
  | none => none
  | some h =>
    match (splitOnChar ' ' h.data).get? 1 with
    | none => none
    | some t => if t.isEmpty then none else some (String.mk t)

/-- The `authenticateToken` middleware.  `verify` is `jwt.verify` with
the configured secret. -/
def authenticateToken (verify : String → Except JwtError JwtPayload)
    (authHeader : Option String) : GateResult :=
  match extractToken authHeader with
  | none => GateResult.response 401 accessTokenRequiredBody
  | some t =>
    match verify t with
    | Except.error _ => GateResult.response 403 invalidTokenBody
    | Except.ok user => GateResult.proceed user

/-- `GET /members/profile` end to end: the auth gate, then the handler
with the decoded claims. -/
def profileEndpoint (verify : String → Except JwtError JwtPayload)
    (db : DB) (queryFails : Option DbError) (authHeader : Option String) :
    Nat × JValue :=
  match authenticateToken verify authHeader with
  | GateResult.response s b => (s, b)
  | GateResult.proceed user => membersProfile db queryFails user.id

/-! ### Concrete fixtures for witnesses and counterexamples -/

/-- A valid sign-up payload (the spec's concrete Ada scenario). -/
def adaFields : List (String × JValue) :=
  [("firstName", JValue.jStr "Ada"), ("lastName", JValue.jStr "Lovelace"),
   ("email", JValue.jStr "ada@example.com"), ("password", JValue.jStr "verysecret")]

def adaBody : JValue := JValue.jObj adaFields

/-- A sign-up payload violating two rules at once (`firstName` too short,
`password` too short) while reusing Ada's email. -/
def badFields : List (String × JValue) :=
  [("firstName", JValue.jStr "A"), ("lastName", JValue.jStr "Lovelace"),
   ("email", JValue.jStr "ada@example.com"), ("password", JValue.jStr "short")]

def badBody : JValue := JValue.jObj badFields

/-- A valid sign-up payload for a second, fresh email. -/
def eveFields : List (String × JValue) :=
  [("firstName", JValue.jStr "Eve"), ("lastName", JValue.jStr "Adams"),
   ("email", JValue.jStr "eve@example.com"), ("password", JValue.jStr "evesecret12")]

def eveBody : JValue := JValue.jObj eveFields

def dbEmpty : DB := { members := [], nextId := 1 }

def adaMember : Member :=
  { id := 1, first_name := "Ada", last_name := "Lovelace",
    email := "ada@example.com", phone := none, password_hash := "#verysecret",
    date_of_birth := none, gender := none, address := none,
    church_role := "member", join_date := "2024-01-01",
    is_active := true, email_verified := false }

/-- A registered but deactivated member. -/
def eveMember : Member :=
  { id := 2, first_name := "Eve", last_name := "Adams",
    email := "eve@example.com", phone := none, password_hash := "#evesecret12",
    date_of_birth := none, gender := none, address := none,
    church_role := "member", join_date := "2024-01-02",
    is_active := false, email_verified := false }

def db1 : DB := { members := [adaMember], nextId := 2 }

def db2 : DB := { members := [adaMember, eveMember], nextId := 3 }

/-- A concrete stand-in for `bcrypt.hash(·, 12)`: prefixing makes the
digest visibly different from every plaintext. -/
def cHash (p : String) : String := "#" ++ p

/-- A concrete stand-in for `bcrypt.compare` against `cHash` digests. -/
def cCompare (p : JValue) (h : String) : Bool :=
  match p with
  | JValue.jStr s => h == "#" ++ s
  | _ => false

/-- A `bcrypt.compare` stand-in that accepts everything (a correct
password for any account). -/
def cCompareTrue (_ : JValue) (_ : String) : Bool := true

/-- A concrete stand-in for `jwt.sign`. -/
def cSign (_ : JwtPayload) : String := "tok"

/-- A concrete stand-in for `jwt.verify`: accepts exactly `cSign`'s
output, decoding it to member 1's claims. -/
def cVerify (t : String) : Except JwtError JwtPayload :=
  if t == "tok" then Except.ok { id := 1, email := "ada@example.com", role := "member" }
  else Except.error JwtError.invalidSignature

/-- The pg error a concurrent duplicate insert throws (SQLSTATE 23505). -/
def uniqueViolation : DbError :=
  { message := "duplicate key value violates unique constraint \x22members_email_key\x22",
    code := "23505" }

theorem cHash_ne (p : String) : cHash p ≠ p := by
  intro h
  have hl := congrArg String.length h
  rw [cHash, String.length_append, show ("#" : String).length = 1 from rfl] at hl
  omega

/-- A pg connection failure, as thrown by a query. -/
def connectionRefused : DbError := { message := "connection refused", code := "53300" }

/-! ### Claims -/

/-- Claim C2, counterexample: login for a registered but deactivated
member with an incorrect password answers 401 `Account is deactivated`,
while login with a nonexistent email answers 401 `Invalid credentials` —
the two responses are not textually identical, contrary to the claim's
universal statement over every existing email. -/
theorem C2_counterexample :
    db2.members.find? (fun m => paramEqText (JValue.jStr "eve@example.com") m.email)
      = some eveMember
    ∧ cCompare (JValue.jStr "wrongpassword") eveMember.password_hash = false
    ∧ db2.members.find? (fun m => paramEqText (JValue.jStr "nobody@example.com") m.email)
        = none
    ∧ membersLogin db2 none (some (JValue.jStr "eve@example.com"))
        (some (JValue.jStr "wrongpassword")) cCompare cSign
      ≠ membersLogin db2 none (some (JValue.jStr "nobody@example.com"))
          (some (JValue.jStr "wrongpassword")) cCompare cSign := by
  refine ⟨rfl, rfl, rfl, by decide⟩

/-- Claim C2 (amended): for every login request with a nonexistent email,
and every login request with an existing **active** member's email but an
incorrect password, the two responses are textually identical: both are
status 401 with the `Invalid credentials` body. -/
theorem C2_amended_undifferentiated (db : DB) (compare : JValue → String → Bool)
    (sign : JwtPayload → String) (ev pv : JValue)
    (hev : jsTruthy ev = true) (hpv : jsTruthy pv = true) :
    (db.members.find? (fun m => paramEqText ev m.email) = none →
      membersLogin db none (some ev) (some pv) compare sign
        = (401, invalidCredentialsBody))
    ∧ (∀ m, db.members.find? (fun m => paramEqText ev m.email) = some m →
        m.is_active = true → compare pv m.password_hash = false →
        membersLogin db none (some ev) (some pv) compare sign
          = (401, invalidCredentialsBody)) := by
  unfold membersLogin
  simp only [jsTruthyOpt, hev, hpv, Bool.not_true, Bool.or_self, Bool.false_or,
    if_false, Option.getD_some]
  constructor
  · intro h
    rw [h]
    simp
  · intro m hm hact hcmp
    rw [hm]
    simp [hact, hcmp]

/-- Witness for the amended C2 at a concrete store and request. -/
theorem C2_amended_witness :
    membersLogin db2 none (some (JValue.jStr "nobody@example.com"))
      (some (JValue.jStr "wrongpassword")) cCompare cSign
      = (401, invalidCredentialsBody) :=
  (C2_amended_undifferentiated db2 cCompare cSign
    (JValue.jStr "nobody@example.com") (JValue.jStr "wrongpassword")
    (by decide) (by decide)).1 rfl

/-- Claim C3, counterexample: `badBody` violates both the `firstName`
rule and the `password` rule, yet the 400 response reports only the
`firstName` message — Joi's default `abortEarly: true` stops at the first
violation, so the error list does not contain a message for every
violated rule. -/
theorem C3_counterexample :
    requiredStringCheck "firstName" 2 100 (lookupField badFields "firstName") ≠ none
    ∧ passwordCheck (lookupField badFields "password") ≠ none
    ∧ (membersSignup dbEmpty StoreBehavior.normal badBody cHash cSign false
        "2024-01-01").2
      = (400, validationErrorBody
          ["\"firstName\" length must be at least 2 characters long"]) := by
  refine ⟨by decide, by decide, rfl⟩

/-- Claim C3 (amended): for every sign-up payload that fails validation,
the response is 400 and its error list contains exactly one message —
the first violated rule in schema order (the source calls
`memberSignupSchema.validate` with Joi's default `abortEarly: true`) —
not a message for every violated rule. -/
theorem C3_amended_fail_fast (db : DB) (behavior : StoreBehavior) (body : JValue)
    (hash : String → String) (sign : JwtPayload → String)
    (devMode : Bool) (joinDate : String) (es : List String)
    (h : signupValidate body = Except.error es) :
    membersSignup db behavior body hash sign devMode joinDate
      = (db, 400, validationErrorBody es)
    ∧ es.length = 1 := by
  constructor
  · unfold membersSignup
    rw [h]
  · unfold signupValidate at h
    split at h
    · split at h
      · cases h
        rfl
      · cases h
    · cases h
      rfl

/-- Witness for the amended C3 at the two-violation payload. -/
theorem C3_amended_witness :
    membersSignup dbEmpty StoreBehavior.normal badBody cHash cSign false "2024-01-01"
      = (dbEmpty, 400, validationErrorBody
          ["\"firstName\" length must be at least 2 characters long"])
    ∧ (["\"firstName\" length must be at least 2 characters long"] : List String).length
        = 1 :=
  C3_amended_fail_fast dbEmpty StoreBehavior.normal badBody cHash cSign false
    "2024-01-01" _ rfl

/-- Claim C4, counterexample: a sign-up payload reusing Ada's registered
email but carrying an invalid `firstName` is rejected by validation with
status 400, not 409 — the conflict status is not independent of the
other field values. -/
theorem C4_counterexample :
    adaMember ∈ db1.members
    ∧ lookupField badFields "email" = some (JValue.jStr adaMember.email)
    ∧ (membersSignup db1 StoreBehavior.normal badBody cHash cSign false
        "2024-01-01").2.1 = 400
    ∧ (400 : Nat) ≠ 409 := by
  refine ⟨by decide, rfl, rfl, by decide⟩

/-- Claim C4 (amended): for every sign-up request that passes validation
and whose email equals the email of an already-registered member, the
response is 409 regardless of the values of the other fields — also when
the insert would fail, since the handler answers 409 before inserting. -/
theorem C4_amended_conflict (db : DB) (body : JValue) (hash : String → String)
    (sign : JwtPayload → String) (devMode : Bool) (joinDate : String)
    (v : SignupData) (e : DbError)
    (hval : signupValidate body = Except.ok v)
    (hex : db.members.any (fun m => m.email == v.email) = true) :
    membersSignup db StoreBehavior.normal body hash sign devMode joinDate
      = (db, 409, emailConflictBody)
    ∧ membersSignup db (StoreBehavior.failInsert e) body hash sign devMode joinDate
      = (db, 409, emailConflictBody) := by
  unfold membersSignup
  rw [hval]
  constructor <;> simp [hex]

/-- Witness for the amended C4: Ada's email reused at a store already
holding Ada. -/
theorem C4_amended_witness :
    membersSignup db1 StoreBehavior.normal adaBody cHash cSign false "2024-01-01"
      = (db1, 409, emailConflictBody)
    ∧ membersSignup db1 (StoreBehavior.failInsert uniqueViolation) adaBody cHash cSign
        false "2024-01-01"
      = (db1, 409, emailConflictBody) :=
  C4_amended_conflict db1 adaBody cHash cSign false "2024-01-01" _ uniqueViolation
    rfl rfl

/-- Claim C5: the sign-up catch block answers 500 with the generic
message, but the source's ternary
`process.env.NODE_ENV === 'development' ? error.message : error.message`
puts the raw store error message into the response body in **both**
branches, so the raw message is exposed to the client also outside
development mode — the code contradicts the claim (and the spec flags
exactly this as a defect). -/
theorem C5_raw_error_exposed :
    membersSignup dbEmpty (StoreBehavior.failInsert connectionRefused) adaBody cHash
      cSign false "2024-01-01"
      = (dbEmpty, 500, signupCatchBody false connectionRefused)
    ∧ (∀ (devMode : Bool) (e : DbError),
        signupCatchBody devMode e
          = JValue.jObj
              [("success", JValue.jBool false),
               ("message", JValue.jStr "Internal server error"),
               ("error", JValue.jStr e.message)]) := by
  constructor
  · rfl
  · intro devMode e
    cases devMode <;> rfl

/-- Claim C6: the sign-up catch block does not inspect the thrown
error's SQLSTATE code, so a concurrent duplicate insert that fails with
the uniqueness-violation error `23505` after the existence check passed
is answered 500 `Internal server error`, not the 409 conflict response
the spec requires. -/
theorem C6_race_loser_gets_500 :
    uniqueViolation.code = "23505"
    ∧ db1.members.any (fun m => m.email == "eve@example.com") = false
    ∧ membersSignup db1 (StoreBehavior.failInsert uniqueViolation) eveBody cHash cSign
        false "2024-01-02"
      = (db1, 500, signupCatchBody false uniqueViolation)
    ∧ (500 : Nat) ≠ 409 := by
  refine ⟨rfl, rfl, rfl, by decide⟩

/-- Claim C7: on the protected profile endpoint, a missing token makes
the auth gate answer 401 `Access token required`; a token whose
verification fails makes it answer 403 `Invalid or expired token`; and
only on successful verification does the profile handler run, keyed by
the decoded claims' member id. -/
theorem C7_auth_gate (verify : String → Except JwtError JwtPayload)
    (db : DB) (queryFails : Option DbError) (authHeader : Option String) :
    (extractToken authHeader = none →
      profileEndpoint verify db queryFails authHeader
        = (401, accessTokenRequiredBody))
    ∧ (∀ t e, extractToken authHeader = some t → verify t = Except.error e →
        profileEndpoint verify db queryFails authHeader = (403, invalidTokenBody))
    ∧ (∀ t u, extractToken authHeader = some t → verify t = Except.ok u →
        profileEndpoint verify db queryFails authHeader
          = membersProfile db queryFails u.id) := by
  unfold profileEndpoint authenticateToken
  refine ⟨?_, ?_, ?_⟩
  · intro h
    rw [h]
  · intro t e h hv
    rw [h]
    simp [hv]
  · intro t u h hv
    rw [h]
    simp [hv]

/-- Witness for C7: no authorization header at all yields 401. -/
theorem C7_witness :
    profileEndpoint cVerify db1 none none = (401, accessTokenRequiredBody) :=
  (C7_auth_gate cVerify db1 none none).1 rfl

/-- Claim C8: a login request naming an existing member whose `is_active`
flag is false is answered 401 `Account is deactivated` — a message
different from `Invalid credentials` — for **every** password comparison
function, hence also when the supplied password is correct: the
deactivation check precedes `bcrypt.compare`. -/
theorem C8_deactivated_distinct (db : DB) (compare : JValue → String → Bool)
    (sign : JwtPayload → String) (ev pv : JValue) (m : Member)
    (hev : jsTruthy ev = true) (hpv : jsTruthy pv = true)
    (hfind : db.members.find? (fun m => paramEqText ev m.email) = some m)
    (hact : m.is_active = false) :
    membersLogin db none (some ev) (some pv) compare sign = (401, deactivatedBody)
    ∧ deactivatedBody ≠ invalidCredentialsBody := by
  constructor
  · unfold membersLogin
    simp only [jsTruthyOpt, hev, hpv, Bool.not_true, Bool.or_self, Bool.false_or,
      if_false, Option.getD_some]
    rw [hfind]
    simp [hact]
  · decide

/-- Witness for C8: Eve is registered and deactivated; with a comparison
that accepts every password (the password is correct) login still
answers the deactivated body. -/
theorem C8_witness :
    membersLogin db2 none (some (JValue.jStr "eve@example.com"))
      (some (JValue.jStr "evesecret12")) cCompareTrue cSign
      = (401, deactivatedBody)
    ∧ deactivatedBody ≠ invalidCredentialsBody :=
  C8_deactivated_distinct db2 cCompareTrue cSign (JValue.jStr "eve@example.com")
    (JValue.jStr "evesecret12") eveMember (by decide) (by decide) (by decide) rfl

theorem splitOnChar_ne_nil (sep : Char) (l : List Char) : splitOnChar sep l ≠ [] := by
  cases l with
  | nil => simp [splitOnChar]
  | cons c cs =>
    unfold splitOnChar
    split <;> split <;> simp

theorem splitOnChar_sep_cons (sep : Char) (w t : List Char)
    (hw : w.contains sep = false) :
    splitOnChar sep (w ++ sep :: t) = w :: splitOnChar sep t := by
  induction w with
  | nil =>
    have h := splitOnChar_ne_nil sep t
    simp only [List.nil_append]
    conv_lhs => rw [splitOnChar]
    cases hsp : splitOnChar sep t with
    | nil => exact absurd hsp h
    | cons x xs => simp
  | cons c w ih =>
    simp only [List.contains_cons, Bool.or_eq_false_iff, beq_eq_false_iff_ne] at hw
    simp only [List.cons_append]
    conv_lhs => rw [splitOnChar]
    rw [ih hw.2]
    simp [Ne.symm hw.1]

theorem splitOnChar_no_sep (sep : Char) (w : List Char)
    (hw : w.contains sep = false) :
    splitOnChar sep w = [w] := by
  induction w with
  | nil => rfl
  | cons c w ih =>
    simp only [List.contains_cons, Bool.or_eq_false_iff, beq_eq_false_iff_ne] at hw
    conv_lhs => rw [splitOnChar]
    rw [ih hw.2]
    simp [Ne.symm hw.1]

/-- Claim C10: the auth gate takes `authHeader.split(' ')[1]` without
inspecting the scheme word, so a header `w <token>` behaves exactly like
`Bearer <token>` for every space-free scheme word `w`; and a header that
is a single word with no second segment (e.g. `Bearer` alone) leaves the
token missing and is answered 401, not 403. -/
theorem C10_scheme_ignored (verify : String → Except JwtError JwtPayload)
    (w t : String) (hw : w.data.contains ' ' = false) :
    authenticateToken verify (some (w ++ " " ++ t))
      = authenticateToken verify (some ("Bearer" ++ " " ++ t))
    ∧ authenticateToken verify (some w)
        = GateResult.response 401 accessTokenRequiredBody := by
  constructor
  · have h1 : (w ++ " " ++ t).data = w.data ++ ' ' :: t.data := by
      simp [String.data_append]
    have h2 : ("Bearer" ++ " " ++ t).data = "Bearer".data ++ ' ' :: t.data := by
      simp [String.data_append]
    unfold authenticateToken
    simp only [extractToken]
    rw [h1, h2, splitOnChar_sep_cons ' ' w.data t.data hw,
      splitOnChar_sep_cons ' ' "Bearer".data t.data (by decide)]
    simp only [List.get?_cons_succ]
  · unfold authenticateToken
    simp only [extractToken]
    rw [splitOnChar_no_sep ' ' w.data hw]
    rfl

/-- Witness for C10: `Basic tok` is treated like `Bearer tok`, and the
one-word header `Bearer` gets the 401 missing-token response. -/
theorem C10_witness :
    authenticateToken cVerify (some ("Basic" ++ " " ++ "tok"))
      = authenticateToken cVerify (some ("Bearer" ++ " " ++ "tok"))
    ∧ authenticateToken cVerify (some "Bearer")
        = GateResult.response 401 accessTokenRequiredBody :=
  ⟨(C10_scheme_ignored cVerify "Basic" "tok" (by decide)).1,
   (C10_scheme_ignored cVerify "Bearer" "tok" (by decide)).2⟩

theorem isDigit19_eq (d : Char) : isDigit19 d = (isDigit09 d && d != '0') := by
  unfold isDigit19 isDigit09
  cases h : d == '0' with
  | true =>
    have hd : d = '0' := eq_of_beq h
    subst hd
    decide
  | false =>
    have h2 : d ≠ '0' := by simpa [beq_eq_false_iff_ne] using h
    simp [List.contains_cons, h2]

/-- Formalisation of claim C9's wording for the digit run: 1 to 16
digits of which the first is non-zero. -/
def specDigitRun (ds : List Char) : Bool :=
  decide (1 ≤ ds.length) && decide (ds.length ≤ 16) && ds.all isDigit09 &&
    (match ds.head? with
     | some d => d != '0'
     | none => false)

theorem phoneRegexBody_eq (ds : List Char) : phoneRegexBody ds = specDigitRun ds := by
  cases ds with
  | nil => decide
  | cons d rest =>
    rw [Bool.eq_iff_iff]
    unfold phoneRegexBody specDigitRun
    simp only [isDigit19_eq, List.length_cons, List.all_cons, List.head?_cons,
      Bool.and_eq_true, decide_eq_true_eq, bne_iff_ne]
    constructor
    · rintro ⟨⟨⟨h9, h0⟩, h15⟩, hall⟩
      refine ⟨⟨⟨by omega, by omega⟩, h9, hall⟩, h0⟩
    · rintro ⟨⟨⟨h1, h16⟩, h9, hall⟩, h0⟩
      refine ⟨⟨⟨h9, h0⟩, by omega⟩, hall⟩

/-- Formalisation of claim C9's wording: the phone field is acceptable
iff it is absent, or it is a string consisting of an optional leading
plus sign followed by 1 to 16 digits of which the first is non-zero. -/
def phoneSpecOk : Option JValue → Bool
  | none => true
  | some (JValue.jStr s) => specDigitRun (stripLeadingPlus s.data)
  | some _ => false

/-- Claim C9: the schema's phone rule accepts a field value exactly when
the claim's wording says it should — it is absent, or it is a string of
an optional leading plus sign followed by 1 to 16 digits whose first
digit is non-zero; moreover every payload accepted by the full schema
has a spec-conformant phone field. -/
theorem C9_phone_rule :
    (∀ v : Option JValue, phoneCheck v = none ↔ phoneSpecOk v = true)
    ∧ (∀ (fields : List (String × JValue)) (v : SignupData),
        signupValidate (JValue.jObj fields) = Except.ok v →
        phoneSpecOk (lookupField fields "phone") = true) := by
  have hcore : ∀ v : Option JValue, phoneCheck v = none ↔ phoneSpecOk v = true := by
    intro v
    match v with
    | none => simp [phoneCheck, phoneSpecOk]
    | some JValue.jNull => simp [phoneCheck, phoneSpecOk]
    | some (JValue.jBool b) => simp [phoneCheck, phoneSpecOk]
    | some (JValue.jNum n) => simp [phoneCheck, phoneSpecOk]
    | some (JValue.jArr xs) => simp [phoneCheck, phoneSpecOk]
    | some (JValue.jObj fs) => simp [phoneCheck, phoneSpecOk]
    | some (JValue.jStr s) =>
      by_cases hs : s = ""
      · subst hs
        decide
      · simp only [phoneCheck, phoneSpecOk, phoneRegexMatches]
        rw [if_neg hs]
        simp only [phoneRegexBody_eq]
        cases hb : specDigitRun (stripLeadingPlus s.data) <;> simp [hb]
  refine ⟨hcore, ?_⟩
  intro fields v h
  have hnone : firstValidationError fields = none := by
    cases hfe : firstValidationError fields with
    | none => rfl
    | some e =>
      simp only [signupValidate, hfe] at h
      exact Except.noConfusion h
  have hphone : phoneCheck (lookupField fields "phone") = none := by
    unfold firstValidationError at hnone
    simp only [Option.orElse_eq_none] at hnone
    exact hnone.2.2.2.1
  exact (hcore _).mp hphone

/-- Witness for C9 at a concrete phone value and a concrete accepted
payload. -/
theorem C9_witness :
    (phoneCheck (some (JValue.jStr "+2348012345678")) = none
      ↔ phoneSpecOk (some (JValue.jStr "+2348012345678")) = true)
    ∧ phoneSpecOk (lookupField adaFields "phone") = true :=
  ⟨C9_phone_rule.1 (some (JValue.jStr "+2348012345678")),
   C9_phone_rule.2 adaFields _ rfl⟩

theorem keysOfArr_map_jStr (es : List String) : keysOfArr (es.map JValue.jStr) = [] := by
  induction es with
  | nil => rfl
  | cons e es ih => simp [keysOfArr, keysOf, ih]

theorem keys_jsonOfOptText (o : Option String) : keysOf (jsonOfOptText o) = [] := by
  cases o <;> rfl

theorem no_ph_signup (db : DB) (behavior : StoreBehavior) (body : JValue)
    (hash : String → String) (sign : JwtPayload → String)
    (devMode : Bool) (joinDate : String) :
    "password_hash"
      ∉ keysOf (membersSignup db behavior body hash sign devMode joinDate).2.2 := by
  unfold membersSignup
  cases hval : signupValidate body with
  | error es =>
    simp [validationErrorBody, keysOf, keysOfFields, keysOfArr, keysOfArr_map_jStr]
  | ok v =>
    cases behavior with
    | failSelect e =>
      simp [signupCatchBody, keysOf, keysOfFields, keysOfArr]
    | failInsert e =>
      by_cases hex : db.members.any (fun m => m.email == v.email)
      · simp [hex, emailConflictBody, keysOf, keysOfFields, keysOfArr]
      · simp [hex, signupCatchBody, keysOf, keysOfFields, keysOfArr]
    | normal =>
      by_cases hex : db.members.any (fun m => m.email == v.email)
      · simp [hex, emailConflictBody, keysOf, keysOfFields, keysOfArr]
      · simp [hex, signupSuccessBody, returningRow, keysOf, keysOfFields, keysOfArr]

theorem no_ph_login (db : DB) (queryFails : Option DbError)
    (emailField passwordField : Option JValue)
    (compare : JValue → String → Bool) (sign : JwtPayload → String) :
    "password_hash"
      ∉ keysOf (membersLogin db queryFails emailField passwordField compare sign).2 := by
  unfold membersLogin
  by_cases htr : (!jsTruthyOpt emailField || !jsTruthyOpt passwordField) = true
  · simp [htr, missingCredentialsBody, keysOf, keysOfFields, keysOfArr]
  · simp only [htr, if_false]
    cases queryFails with
    | some e => simp [serverErrorBody, keysOf, keysOfFields, keysOfArr]
    | none =>
      cases hf : db.members.find?
          (fun m => paramEqText (emailField.getD JValue.jNull) m.email) with
      | none => simp [hf, invalidCredentialsBody, keysOf, keysOfFields, keysOfArr]
      | some m =>
        by_cases ha : (!m.is_active) = true
        · simp [hf, ha, deactivatedBody, keysOf, keysOfFields, keysOfArr]
        · by_cases hc : (!compare (passwordField.getD JValue.jNull) m.password_hash)
              = true
          · simp [hf, ha, hc, invalidCredentialsBody, keysOf, keysOfFields, keysOfArr]
          · simp [hf, ha, hc, loginSuccessBody, keysOf, keysOfFields, keysOfArr]

theorem no_ph_profile (verify : String → Except JwtError JwtPayload) (db : DB)
    (queryFails : Option DbError) (authHeader : Option String) :
    "password_hash" ∉ keysOf (profileEndpoint verify db queryFails authHeader).2 := by
  unfold profileEndpoint authenticateToken
  cases ht : extractToken authHeader with
  | none => simp [ht, accessTokenRequiredBody, keysOf, keysOfFields, keysOfArr]
  | some t =>
    simp only [ht]
    cases hv : verify t with
    | error e => simp [hv, invalidTokenBody, keysOf, keysOfFields, keysOfArr]
    | ok u =>
      simp only [hv]
      unfold membersProfile
      cases queryFails with
      | some e => simp [serverErrorBody, keysOf, keysOfFields, keysOfArr]
      | none =>
        cases hf : db.members.find? (fun m => m.id == u.id) with
        | none => simp [hf, memberNotFoundBody, keysOf, keysOfFields, keysOfArr]
        | some m =>
          simp [hf, profileRow, keys_jsonOfOptText, keysOf, keysOfFields, keysOfArr]

theorem signup_members_from (db : DB) (behavior : StoreBehavior) (body : JValue)
    (hash : String → String) (sign : JwtPayload → String)
    (devMode : Bool) (joinDate : String) :
    ∀ m ∈ (membersSignup db behavior body hash sign devMode joinDate).1.members,
      m ∈ db.members ∨ ∃ v, signupValidate body = Except.ok v
        ∧ m.password_hash = hash v.password := by
  intro m hm
  unfold membersSignup at hm
  cases hval : signupValidate body with
  | error es =>
    rw [hval] at hm
    exact Or.inl hm
  | ok v =>
    rw [hval] at hm
    cases behavior with
    | failSelect e => exact Or.inl hm
    | failInsert e =>
      by_cases hex : db.members.any (fun m2 => m2.email == v.email) = true
      · simp only [hex, if_true] at hm
        exact Or.inl hm
      · simp only [hex, if_false, Bool.false_eq_true] at hm
        exact Or.inl hm
    | normal =>
      by_cases hex : db.members.any (fun m2 => m2.email == v.email) = true
      · simp only [hex, if_true] at hm
        exact Or.inl hm
      · simp only [hex, if_false, Bool.false_eq_true] at hm
        simp only [List.mem_append, List.mem_singleton] at hm
        cases hm with
        | inl h => exact Or.inl h
        | inr h =>
          refine Or.inr ⟨v, rfl, ?_⟩
          rw [h]
          rfl

/-- Claim C1: for every request to any of the three endpoints — over all
store states, payloads, header values and library behaviors — the
response body has no `password_hash` field anywhere;
and every member the sign-up handler ever stores either pre-existed or
carries `hash(password)` as its stored credential, which differs from
the plaintext password whenever the hash function maps no input to
itself (bcrypt's salted `$2a$12$…` digests never echo their input). -/
theorem C1_password_hash_confined
    (hash : String → String) (hhash : ∀ p, hash p ≠ p)
    (sign : JwtPayload → String) (verify : String → Except JwtError JwtPayload)
    (compare : JValue → String → Bool) (db : DB) (behavior : StoreBehavior)
    (queryFails : Option DbError) (body : JValue)
    (emailField passwordField : Option JValue) (authHeader : Option String)
    (devMode : Bool) (joinDate : String) :
    "password_hash"
        ∉ keysOf (membersSignup db behavior body hash sign devMode joinDate).2.2
    ∧ "password_hash"
        ∉ keysOf (membersLogin db queryFails emailField passwordField compare sign).2
    ∧ "password_hash" ∉ keysOf (profileEndpoint verify db queryFails authHeader).2
    ∧ ∀ m ∈ (membersSignup db behavior body hash sign devMode joinDate).1.members,
        m ∈ db.members ∨ ∃ v, signupValidate body = Except.ok v
          ∧ m.password_hash = hash v.password ∧ m.password_hash ≠ v.password := by
  refine ⟨no_ph_signup db behavior body hash sign devMode joinDate,
    no_ph_login db queryFails emailField passwordField compare sign,
    no_ph_profile verify db queryFails authHeader, ?_⟩
  intro m hm
  rcases signup_members_from db behavior body hash sign devMode joinDate m hm with
    h | ⟨v, hv, hph⟩
  · exact Or.inl h
  · exact Or.inr ⟨v, hv, hph, hph ▸ hhash v.password⟩

/-- Witness for C1 at a concrete sign-up that inserts a member. -/
theorem C1_witness :
    "password_hash" ∉ keysOf (membersSignup dbEmpty StoreBehavior.normal adaBody
      cHash cSign false "2024-01-01").2.2
    ∧ ∀ m ∈ (membersSignup dbEmpty StoreBehavior.normal adaBody cHash cSign false
        "2024-01-01").1.members,
        m ∈ dbEmpty.members ∨ ∃ v, signupValidate adaBody = Except.ok v
          ∧ m.password_hash = cHash v.password ∧ m.password_hash ≠ v.password :=
  ⟨(C1_password_hash_confined cHash cHash_ne cSign cVerify cCompare dbEmpty
      StoreBehavior.normal none adaBody (some (JValue.jStr "ada@example.com"))
      (some (JValue.jStr "verysecret")) (some "Bearer tok") false "2024-01-01").1,
   (C1_password_hash_confined cHash cHash_ne cSign cVerify cCompare dbEmpty
      StoreBehavior.normal none adaBody (some (JValue.jStr "ada@example.com"))
      (some (JValue.jStr "verysecret")) (some "Bearer tok") false "2024-01-01").2.2.2⟩

end FaithConnect
